import Mathlib

/-!
Verification of the lwan HTTP request parser / response-header encoder
(`src/lwan-request.c`) against its natural-language specification.

The C code is shallowly embedded: the attacker-controlled read buffer is a
`List Char` (one entry per byte actually defined by the program: the bytes
returned by `read` plus the single NUL the orchestration writes at
`buffer[bytes_read]`).  Pointers into the buffer are `Nat` indices; the
pointer difference `space - buffer`, stored into the `size_t` field
`url_len`, is modelled as a two's-complement cast (`sizeT`).  C code paths
that dereference memory outside the defined region (the missing length
check before `end_of_line - sizeof("HTTP/X.X")`, or the `++p` applied to a
`NULL` returned by `strchr`) are modelled by a distinguished `crash`
outcome.
-/

/-- The NUL byte, used by the C code both as string terminator and as the
in-place cut marker it writes into the buffer. -/
def nul : Char := '\x00'

/-- Reading a byte of the buffer: `rd buf i` is `buf[i]`; indices at or past
the end of the modelled region read as NUL (the orchestration NUL-terminates
the buffer, so in-range executions never depend on this default). -/
def rd (buf : List Char) (i : Nat) : Char := buf.getD i nul

/-- A pointer difference cast to `size_t` (64-bit two's complement), as in
`request->url_len = space - buffer`. -/
def sizeT (i : Int) : Nat := (i % ((2 : Int) ^ 64)).toNat

/-- `memchr(buf + pos, c, limit)`: first index `j` in `[pos, pos + limit)`
with `buf[j] = c`.  The scan is bounded by the modelled region: bytes past
it are indeterminate stack memory which the claims never depend on. -/
def memchr (buf : List Char) (pos : Nat) (c : Char) (limit : Nat) : Option Nat :=
  match limit with
  | 0 => none
  | n + 1 =>
    if h : pos < buf.length then
      if buf[pos] = c then some pos else memchr buf (pos + 1) c n
    else none

/-- Helper for `strchr`: scan the suffix `l` of the buffer, whose head sits
at absolute index `idx`. -/
def strchrAux (l : List Char) (c : Char) (idx : Nat) : Option Nat :=
  match l with
  | [] => none
  | ch :: rest =>
    if ch = c then some idx
    else if ch = nul then none
    else strchrAux rest c (idx + 1)

/-- `strchr(buf + pos, c)`: first index `j ≥ pos` with `buf[j] = c`,
stopping (with `none`, i.e. `NULL`) at a NUL terminator or at the end of
the modelled region. -/
def strchr (buf : List Char) (pos : Nat) (c : Char) : Option Nat :=
  strchrAux (buf.drop pos) c pos

theorem strchrAux_ge (c : Char) :
    ∀ (l : List Char) (idx j : Nat), strchrAux l c idx = some j → idx ≤ j := by
  intro l
  induction l with
  | nil => intro idx j h; simp [strchrAux] at h
  | cons ch rest ih =>
    intro idx j h
    unfold strchrAux at h
    split at h
    · exact Nat.le_of_eq (Option.some_inj.mp h)
    · split at h
      · exact absurd h (by simp)
      · exact Nat.le_of_succ_le (ih (idx + 1) j h)

theorem strchr_ge (buf : List Char) (pos : Nat) (c : Char) (j : Nat)
    (h : strchr buf pos c = some j) : pos ≤ j :=
  strchrAux_ge c (buf.drop pos) pos j h

theorem memchr_lt_length :
    ∀ (limit : Nat) (buf : List Char) (pos : Nat) (c : Char) (j : Nat),
      memchr buf pos c limit = some j → j < buf.length := by
  intro limit
  induction limit with
  | zero => intro buf pos c j h; simp [memchr] at h
  | succ n ih =>
    intro buf pos c j h
    unfold memchr at h
    split at h
    · split at h
      · cases h; assumption
      · exact ih buf (pos + 1) c j h
    · exact absurd h (by simp)

theorem rd_lt_of_ne_nul (buf : List Char) (i : Nat) (h : rd buf i ≠ nul) :
    i < buf.length := by
  by_contra hc
  exact h (by simp [rd, List.getD, List.getElem?_eq_none (Nat.le_of_not_lt hc)])

theorem rd_set_self (buf : List Char) (i : Nat) (c : Char) (h : i < buf.length) :
    rd (buf.set i c) i = c := by
  simp [rd, List.getD, List.getElem?_set_self, h]

theorem rd_set_ne (buf : List Char) (i j : Nat) (c : Char) (h : i ≠ j) :
    rd (buf.set i c) j = rd buf j := by
  simp [rd, List.getD, List.getElem?_set_ne h]

/-! ## Data model -/

/-- `lwan_http_method_t`: only GET and HEAD are recognized; any other token
aborts parsing (`NOT_ALLOWED`), so no third constructor is needed. -/
inductive HttpMethod
  | get
  | head
  deriving DecidableEq, Repr

/-- `lwan_http_version_t`. -/
inductive HttpVersion
  | http10
  | http11
  deriving DecidableEq, Repr

/-- The HTTP statuses the entry point and encoder use. -/
inductive HttpStatus
  | ok
  | badRequest
  | notFound
  | notAllowed
  | tooLarge
  deriving DecidableEq, Repr

/-- Modelled from the spec: the numeric value of `lwan_http_status_t`
(defined in `lwan.h`, which is not under `src/`) is the 3-digit HTTP status
code that `APPEND_INT8` prints. -/
def statusCode : HttpStatus → Nat
  | .ok => 200
  | .badRequest => 400
  | .notFound => 404
  | .notAllowed => 405
  | .tooLarge => 413

/-- `lwan_request_t`, restricted to the fields the parsing core touches.
`urlStart`/`urlLen` are the borrowed view `url`/`url_len` into the read
buffer; `connection` is the cached `header.connection` byte (0 when the
header is absent, as in the caller-zeroed C struct). -/
structure Request where
  method : HttpMethod
  urlStart : Nat
  urlLen : Nat
  httpVersion : HttpVersion
  connection : Nat
  isKeepAlive : Bool
  deriving DecidableEq, Repr

/-- A freshly zero-initialized request with the method just recorded by
`_identify_http_method`. -/
def Request.initial (m : HttpMethod) : Request :=
  { method := m, urlStart := 0, urlLen := 0, httpVersion := .http10,
    connection := 0, isKeepAlive := false }

/-! ## Scanner / request-line parser -/

/-- The first four bytes at `buf + p`, as loaded by the `STRING_SWITCH`
macro.  Modelled from the spec: `STRING_SWITCH` (defined in `lwan.h`, not
under `src/`) switches on `*((int32_t *)(s))`, i.e. on exactly the first
four bytes — which is why `_parse_headers` guards each line with
`(p + sizeof(int32_t)) >= buffer_end`. -/
def first4 (buf : List Char) (p : Nat) : List Char :=
  [rd buf p, rd buf (p + 1), rd buf (p + 2), rd buf (p + 3)]

/-- `_ignore_leading_whitespace`, scanning the suffix `l` whose head is at
absolute index `pos`: advance while the byte is non-NUL and in the set
`" \t\r\n"` (the `memchr(" \t\r\n", *buffer, 4)` test). -/
def ignoreLWSAux (l : List Char) (pos : Nat) : Nat :=
  match l with
  | [] => pos
  | ch :: rest =>
    if ch ≠ nul ∧ (ch = ' ' ∨ ch = '\t' ∨ ch = '\r' ∨ ch = '\n') then
      ignoreLWSAux rest (pos + 1)
    else pos

/-- `_ignore_leading_whitespace(buffer + pos)`. -/
def ignore_leading_whitespace (buf : List Char) (pos : Nat) : Nat :=
  ignoreLWSAux (buf.drop pos) pos

/-- `_identify_http_method`: a 4-byte `STRING_SWITCH` on `"GET "` /
`"HEAD"`; on a match it records the method and advances past the token
(4 bytes for `"GET "`, 5 for `"HEAD"` plus its *unchecked* delimiter);
`NULL` (here `none`) means method not allowed. -/
def identify_http_method (buf : List Char) (pos : Nat) : Option (HttpMethod × Nat) :=
  if first4 buf pos = "GET ".toList then some (.get, pos + 4)
  else if first4 buf pos = "HEAD".toList then some (.head, pos + 5)
  else none

/-- Outcome of `_identify_http_path`: success carries the updated request,
the twice-mutated buffer and the position past the `\r`; `fail` is the
`return NULL` path; `crash` marks a dereference outside the buffer (the
unchecked backward offset `end_of_line - sizeof("HTTP/X.X")`). -/
inductive PathResult
  | ok (req : Request) (buf : List Char) (p : Nat)
  | fail
  | crash
  deriving DecidableEq, Repr

/-- `_identify_http_path(request, buffer + pos, limit)`.  Mirrors the C
statement by statement: find `\r` within `limit`; write NUL over it;
compute `space = end_of_line - 9` and check `*(space+1) == 'H'` (an
out-of-buffer read when `e < 8`); write NUL over `*space` (out-of-buffer
when `e < 9`); check the major digit `*(space+6)`, read the minor digit
`*(space+8)`; record `url = buffer`, `url_len = space - buffer` (a pointer
difference stored into a `size_t`); finally require `*url == '/'`. -/
def identify_http_path (req : Request) (buf : List Char) (pos limit : Nat) : PathResult :=
  match memchr buf pos '\r' limit with
  | none => .fail
  | some e =>
    let buf1 := buf.set e nul
    if e < 8 then .crash
    else if rd buf1 (e - 8) = 'H' then
      if e < 9 then .crash
      else
        let buf2 := buf1.set (e - 9) nul
        if rd buf2 (e - 3) = '1' then
          let ver := if rd buf2 (e - 1) = '0' then HttpVersion.http10 else HttpVersion.http11
          if rd buf2 pos = '/' then
            .ok { req with httpVersion := ver, urlStart := pos,
                           urlLen := sizeT ((e : Int) - 9 - (pos : Int)) } buf2 (e + 1)
          else .fail
        else .fail
    else .fail

/-- `_compute_flags`: the keep-alive decision, a total function of the
version and the cached Connection byte. -/
def compute_flags (r : Request) : Request :=
  if r.httpVersion = .http11 then
    { r with isKeepAlive := r.connection != Char.toNat 'c' }
  else
    { r with isKeepAlive := r.connection == Char.toNat 'k' }

/-! ## Header parser -/

/-- Outcome of one `MATCH_HEADER(hdr)` expansion: `matched` carries the
mutated buffer (NUL written over the value's `\r`), the value position and
the final `p`; `noMatch` is the `goto did_not_match` path, carrying the
buffer (possibly already mutated!) and the advanced `p` from which the
generic `strchr(p, '\n')` skip resumes. -/
inductive MatchResult
  | matched (buf : List Char) (value : Nat) (p : Nat)
  | noMatch (buf : List Char) (p : Nat)
  deriving DecidableEq, Repr

/-- `MATCH_HEADER(hdr)` with `hdrLen = sizeof(hdr) - 1`: skip the name,
require `':'` then `' '` (each failure advances `p` past the offending
byte, exactly like the C post-increments), find the `\r`, overwrite it with
NUL, and require the following byte to be `'\n'`. -/
def matchHeader (hdrLen : Nat) (buf : List Char) (p : Nat) : MatchResult :=
  if rd buf (p + hdrLen) = ':' then
    if rd buf (p + hdrLen + 1) = ' ' then
      match strchr buf (p + hdrLen + 2) '\r' with
      | none => .noMatch buf (p + hdrLen + 2)
      | some e =>
        let buf1 := buf.set e nul
        if rd buf1 (e + 1) = '\n' then .matched buf1 (p + hdrLen + 2) (e + 1)
        else .noMatch buf1 (e + 1)
    else .noMatch buf (p + hdrLen + 2)
  else .noMatch buf (p + hdrLen + 1)

/-- The final `p` of a `MATCH_HEADER` outcome. -/
def MatchResult.pos : MatchResult → Nat
  | .matched _ _ p => p
  | .noMatch _ p => p

/-- The buffer of a `MATCH_HEADER` outcome. -/
def MatchResult.buffer : MatchResult → List Char
  | .matched b _ _ => b
  | .noMatch b _ => b

/-- The `STRING_SWITCH(p)` over the six allow-listed header names in
`_parse_headers`, including each case's `MATCH_HEADER` and action.  Only
`Connection` has an action: cache `(*value | 0x20)`.  Returns the request,
the (possibly mutated) buffer and the `p` from which the shared
`did_not_match: p = strchr(p, '\n')` statement resumes. -/
def headerSwitch (req : Request) (buf : List Char) (p : Nat) :
    Request × List Char × Nat :=
  if first4 buf p = "Conn".toList then
    match matchHeader 10 buf p with
    | .matched buf1 v p1 =>
      ({ req with connection := (rd buf1 v).toNat ||| 0x20 }, buf1, p1)
    | .noMatch buf1 p1 => (req, buf1, p1)
  else if first4 buf p = "Host".toList then
    match matchHeader 4 buf p with
    | .matched buf1 _ p1 => (req, buf1, p1)
    | .noMatch buf1 p1 => (req, buf1, p1)
  else if first4 buf p = "If-M".toList then
    match matchHeader 17 buf p with
    | .matched buf1 _ p1 => (req, buf1, p1)
    | .noMatch buf1 p1 => (req, buf1, p1)
  else if first4 buf p = "Rang".toList then
    match matchHeader 5 buf p with
    | .matched buf1 _ p1 => (req, buf1, p1)
    | .noMatch buf1 p1 => (req, buf1, p1)
  else if first4 buf p = "Refe".toList then
    match matchHeader 7 buf p with
    | .matched buf1 _ p1 => (req, buf1, p1)
    | .noMatch buf1 p1 => (req, buf1, p1)
  else if first4 buf p = "Cook".toList then
    match matchHeader 6 buf p with
    | .matched buf1 _ p1 => (req, buf1, p1)
    | .noMatch buf1 p1 => (req, buf1, p1)
  else (req, buf, p)

theorem matchHeader_pos_ge (hdrLen : Nat) (buf : List Char) (p : Nat) :
    p ≤ (matchHeader hdrLen buf p).pos := by
  unfold matchHeader
  split
  · split
    · split
      · simp [MatchResult.pos]; omega
      · rename_i e heq
        have he := strchr_ge buf (p + hdrLen + 2) '\r' e heq
        rw [apply_ite MatchResult.pos]
        simp only [MatchResult.pos]
        split <;> omega
    · simp [MatchResult.pos]; omega
  · simp [MatchResult.pos]; omega

theorem headerSwitch_pos_ge (req : Request) (buf : List Char) (p : Nat) :
    p ≤ (headerSwitch req buf p).2.2 := by
  unfold headerSwitch
  split
  · cases hm : matchHeader 10 buf p <;>
      (have hge := matchHeader_pos_ge 10 buf p; rw [hm] at hge;
       simpa [MatchResult.pos] using hge)
  · split
    · cases hm : matchHeader 4 buf p <;>
        (have hge := matchHeader_pos_ge 4 buf p; rw [hm] at hge;
         simpa [MatchResult.pos] using hge)
    · split
      · cases hm : matchHeader 17 buf p <;>
          (have hge := matchHeader_pos_ge 17 buf p; rw [hm] at hge;
           simpa [MatchResult.pos] using hge)
      · split
        · cases hm : matchHeader 5 buf p <;>
            (have hge := matchHeader_pos_ge 5 buf p; rw [hm] at hge;
             simpa [MatchResult.pos] using hge)
        · split
          · cases hm : matchHeader 7 buf p <;>
              (have hge := matchHeader_pos_ge 7 buf p; rw [hm] at hge;
               simpa [MatchResult.pos] using hge)
          · split
            · cases hm : matchHeader 6 buf p <;>
                (have hge := matchHeader_pos_ge 6 buf p; rw [hm] at hge;
                 simpa [MatchResult.pos] using hge)
            · simp

/-- The `for (p = buffer; p && *p; buffer = ++p)` loop of `_parse_headers`.
`ls` is the C variable `buffer` (the last line start, the eventual return
value), `p` the cursor, `bufEnd` the index of `buffer_end`.  Each iteration
checks the early-exit guard, runs the `STRING_SWITCH`, and executes the
shared `did_not_match: p = strchr(p, '\n')`.  When that `strchr` returns
`NULL`, the loop increment applies `++` to a null pointer and the loop
condition dereferences the result: undefined behaviour, modelled as
`none`. -/
def phLoop (req : Request) (buf : List Char) (ls p bufEnd : Nat) :
    Option (Request × List Char × Nat) :=
  if rd buf p = nul then some (req, buf, ls)
  else if h4 : bufEnd ≤ p + 4 then some (req, buf, ls)
  else
    let t := headerSwitch req buf p
    match hq : strchr t.2.1 t.2.2 '\n' with
    | none => none
    | some q => phLoop t.1 t.2.1 (q + 1) (q + 1) bufEnd
termination_by bufEnd - p
decreasing_by
  have h1 := headerSwitch_pos_ge req buf p
  have h2 := strchr_ge (headerSwitch req buf p).2.1 (headerSwitch req buf p).2.2 '\n' q hq
  omega

/-- `_parse_headers(request, buffer + p, buffer + bufEnd)`.  The function
itself never returns `NULL`: `some` carries the request, the mutated
buffer and the returned line-start position; `none` is the undefined
behaviour described at `phLoop`. -/
def parse_headers (req : Request) (buf : List Char) (p bufEnd : Nat) :
    Option (Request × List Char × Nat) :=
  phLoop req buf p p bufEnd

/-- The loop exits immediately (returning the current line start) when the
first byte is NUL or fewer than `sizeof(int32_t)` bytes remain. -/
theorem phLoop_break (req : Request) (buf : List Char) (ls p bufEnd : Nat)
    (h : rd buf p = nul ∨ bufEnd ≤ p + 4) :
    phLoop req buf ls p bufEnd = some (req, buf, ls) := by
  by_cases h0 : rd buf p = nul
  · rw [phLoop, if_pos h0]
  · rw [phLoop, if_neg h0, dif_pos (h.resolve_left h0)]

/-- One full iteration of the loop: switch, generic `\n` skip, continue at
the next line. -/
theorem phLoop_step (req : Request) (buf : List Char) (ls p bufEnd : Nat)
    (req2 : Request) (buf2 : List Char) (p2 q : Nat)
    (h0 : rd buf p ≠ nul) (h4 : ¬ bufEnd ≤ p + 4)
    (hs : headerSwitch req buf p = (req2, buf2, p2))
    (hq : strchr buf2 p2 '\n' = some q) :
    phLoop req buf ls p bufEnd = phLoop req2 buf2 (q + 1) (q + 1) bufEnd := by
  rw [phLoop, if_neg h0, dif_neg h4, hs]
  dsimp only
  split
  · rename_i heq
    simp [hq] at heq
  · rename_i q2 heq
    rw [hq] at heq
    injection heq with h
    rw [h]

/-! ## Response header encoder -/

/-- `lwan_response_t`, restricted to what the encoder reads.  The C `headers`
field is either `NULL` or a sentinel-terminated array; both the `NULL` case
and the immediate-sentinel case are the empty list. -/
structure Response where
  contentLength : Nat
  mimeType : List Char
  headers : List (List Char × List Char)
  deriving DecidableEq, Repr

/-- `_http_versions[v]` (always appended with length 3). -/
def http_versions : HttpVersion → List Char
  | .http10 => "1.0".toList
  | .http11 => "1.1".toList

/-- `_http_connection_type[is_keep_alive]`. -/
def http_connection_type (keepAlive : Bool) : List Char :=
  if keepAlive then "Keep-Alive".toList else "Close".toList

/-- `decimal_digits[d % 10]`, one step of `APPEND_INT8`. -/
def decimalDigit (d : Nat) : Char := Char.ofNat (48 + d % 10)

/-- Modelled from the spec: `int_to_string` (from `int-to-str.h`, not under
`src/`) is general decimal integer-to-string conversion, used for
`Content-Length` "since it is unbounded". -/
def int_to_string (n : Nat) : List Char := Nat.toDigits 10 n

/-- Modelled from the spec: `lwan_http_status_as_string` is the external
status-code-to-reason-phrase table; the spec pins only `200 ↦ "OK"` (the
other entries are unconstrained placeholders, never evaluated by a claim). -/
def lwan_http_status_as_string : HttpStatus → List Char
  | .ok => "OK".toList
  | .badRequest => "Bad Request".toList
  | .notFound => "Not Found".toList
  | .notAllowed => "Not Allowed".toList
  | .tooLarge => "Request Too Large".toList

/-- The extra-header loop: for each entry append `'\r'`, `'\n'`, the name,
`':'`, `' '`, the value (the terminating sentinel is the end of the list). -/
def appendExtraHeaders : List (List Char × List Char) → List Char
  | [] => []
  | (n, v) :: rest => '\r' :: '\n' :: (n ++ ':' :: ' ' :: v ++ appendExtraHeaders rest)

/-- `lwan_prepare_response_header(request, status, headers)`: sequential
append of status line, `Content-Length`, `Content-Type`, `Connection`,
extra headers, `Server: lwan` and the blank line, plus the defensive
trailing NUL (the explicit `\0` inside the final `APPEND_CONSTANT`
literal).  Returns the written bytes together with
`p_headers - headers - 1`, the byte count excluding that NUL. -/
def lwan_prepare_response_header (req : Request) (resp : Response)
    (status : HttpStatus) : List Char × Nat :=
  let out :=
    "HTTP/".toList
    ++ http_versions req.httpVersion
    ++ [' ']
    ++ [decimalDigit (statusCode status / 100),
        decimalDigit (statusCode status / 10),
        decimalDigit (statusCode status)]
    ++ [' ']
    ++ lwan_http_status_as_string status
    ++ "\r\nContent-Length: ".toList
    ++ int_to_string resp.contentLength
    ++ "\r\nContent-Type: ".toList
    ++ resp.mimeType
    ++ "\r\nConnection: ".toList
    ++ http_connection_type req.isKeepAlive
    ++ appendExtraHeaders resp.headers
    ++ "\r\nServer: lwan\r\n\r\n".toList ++ [nul]
  (out, out.length - 1)

/-! ## Request entry point -/

/-- The outcome of the single `read(2)` on the connection, as seen by the
`switch` in `lwan_process_request`: end-of-stream, error, or `bytes_read`
bytes of content. -/
inductive ReadResult
  | closed
  | readError
  | data (content : List Char)
  deriving DecidableEq, Repr

/-- A successful `lwan_trie_lookup_prefix` result: the matched prefix
length and the status the route's handler callback will return (the
router and handler are external collaborators, abstracted by a lookup
function). -/
structure UrlMap where
  prefixLen : Nat
  cbStatus : HttpStatus
  deriving DecidableEq, Repr

/-- Overall outcome of `lwan_process_request`: `noResponse` is `return
false` with nothing sent (connection closed / read error); `defaultResponse
s` is `lwan_default_response(l, request, s)`; `handled req s` is the routed
path, carrying the request exactly as the handler callback receives it;
`crash` is modelled undefined behaviour. -/
inductive ProcessResult
  | noResponse
  | defaultResponse (s : HttpStatus)
  | handled (req : Request) (s : HttpStatus)
  | crash
  deriving DecidableEq, Repr

/-- Parse-pipeline outcome (everything in `lwan_process_request` between
the read and the routing): `ok` carries the fully parsed request and the
mutated buffer. -/
inductive ParseOutcome
  | ok (req : Request) (buf : List Char)
  | fail (s : HttpStatus)
  | crash
  deriving DecidableEq, Repr

/-- Stage 4 of the pipeline: `_parse_headers` then `_compute_flags`.  The
orchestration's `if (!p_buffer)` test after `_parse_headers` can never
fire (the function always returns its non-NULL `buffer` variable), so no
failure arises here; `none` from the loop is undefined behaviour. -/
def parseHd (req : Request) (buf : List Char) (p bytesRead : Nat) : ParseOutcome :=
  match parse_headers req buf p bytesRead with
  | none => .crash
  | some (req2, buf2, _) => .ok (compute_flags req2) buf2

/-- Stage 3: `_identify_http_path`, failure mapped to `BAD_REQUEST`. -/
def parsePath (buf : List Char) (bytesRead : Nat) (m : HttpMethod) (p1 : Nat) :
    ParseOutcome :=
  match identify_http_path (Request.initial m) buf p1 bytesRead with
  | .crash => .crash
  | .fail => .fail .badRequest
  | .ok req buf1 p2 => parseHd req buf1 p2 bytesRead

/-- Stage 2: empty-after-whitespace check (`BAD_REQUEST`) and
`_identify_http_method` (`NOT_ALLOWED`). -/
def parseAfterWS (buf : List Char) (bytesRead p0 : Nat) : ParseOutcome :=
  if rd buf p0 = nul then .fail .badRequest
  else
    match identify_http_method buf p0 with
    | none => .fail .notAllowed
    | some (m, p1) => parsePath buf bytesRead m p1

/-- The parse pipeline of `lwan_process_request` run on a buffer (already
NUL-terminated at `bytesRead` by the orchestration): whitespace skip,
method, request line, headers, flags. -/
def parseBuffer (buf : List Char) (bytesRead : Nat) : ParseOutcome :=
  parseAfterWS buf bytesRead (ignore_leading_whitespace buf 0)

/-- The C string at `buf + start`, as the external trie reads it:
everything up to the next NUL. -/
def urlString (buf : List Char) (start : Nat) : List Char :=
  (buf.drop start).takeWhile (fun c => c ≠ nul)

/-- Routing: `lwan_trie_lookup_prefix` on the parsed URL; on a hit the code
executes `request->url += url_map->prefix_len` (nothing else changes) and
invokes the handler; on a miss, `NOT_FOUND`. -/
def routeRequest (o : ParseOutcome) (lookup : List Char → Option UrlMap) :
    ProcessResult :=
  match o with
  | .fail s => .defaultResponse s
  | .crash => .crash
  | .ok req buf =>
    match lookup (urlString buf req.urlStart) with
    | none => .defaultResponse .notFound
    | some um =>
      .handled { req with urlStart := req.urlStart + um.prefixLen } um.cbStatus

/-- `lwan_process_request`: the read switch (`0` → closed, `-1` → error,
`sizeof(buffer)` = 6144 → `TOO_LARGE` before any parsing), the NUL
terminator write at `buffer[bytes_read]`, the parse pipeline, and
routing. -/
def lwan_process_request (rr : ReadResult) (lookup : List Char → Option UrlMap) :
    ProcessResult :=
  match rr with
  | .closed => .noResponse
  | .readError => .noResponse
  | .data content =>
    if content.length = 6144 then .defaultResponse .tooLarge
    else routeRequest (parseBuffer (content ++ [nul]) content.length) lookup

/-! ## Claims -/

/-- C1: the spec requires the request-line parser to validate the line
length before computing and dereferencing the fixed backward offset
`end_of_line - sizeof("HTTP/X.X")`, and to fail cleanly on short lines
without touching memory outside the buffer.  The code performs no such
check: on the 7-byte read `"GET /\r\n"` it finds the `\r` at offset 5,
computes `space = end_of_line - 9`, and dereferences `*(space + 1)` —
three bytes before the start of the stack buffer.  The theorem evaluates
the entry point at that failing input and shows it reaches the modelled
out-of-bounds access instead of a clean `BAD_REQUEST`. -/
theorem c1_short_request_line_out_of_bounds (lookup : List Char → Option UrlMap) :
    lwan_process_request (.data ("GET /\r\n".toList)) lookup = .crash := by
  have h : parseBuffer ("GET /\r\n".toList ++ [nul]) ("GET /\r\n".toList).length
      = .crash := by decide
  simp only [lwan_process_request]
  rw [if_neg (by decide), h]
  rfl

/-- C2: the keep-alive flag computed by `_compute_flags` follows the exact
truth table: HTTP/1.1 is keep-alive unless the cached Connection byte is
`'c'` (including the absent/zero byte), HTTP/1.0 is keep-alive exactly
when the byte is `'k'`; the function is total. -/
theorem c2_keep_alive_truth_table (r : Request) :
    ((r.httpVersion = .http11 ∧ r.connection ≠ Char.toNat 'c') →
        (compute_flags r).isKeepAlive = true) ∧
    ((r.httpVersion = .http11 ∧ r.connection = Char.toNat 'c') →
        (compute_flags r).isKeepAlive = false) ∧
    ((r.httpVersion = .http10 ∧ r.connection = Char.toNat 'k') →
        (compute_flags r).isKeepAlive = true) ∧
    ((r.httpVersion = .http10 ∧ r.connection ≠ Char.toNat 'k') →
        (compute_flags r).isKeepAlive = false) := by
  refine ⟨fun ⟨hv, hc⟩ => ?_, fun ⟨hv, hc⟩ => ?_, fun ⟨hv, hc⟩ => ?_, fun ⟨hv, hc⟩ => ?_⟩ <;>
    first
    | (simp [compute_flags, hv, hc]; done)
    | (simp [compute_flags, hv]; exact fun hcc => hc (hcc.trans (by decide)))

/-- Witness for C2: HTTP/1.1 with no Connection header (byte 0) is
keep-alive. -/
theorem c2_keep_alive_truth_table_witness :
    ({ method := .get, urlStart := 0, urlLen := 0, httpVersion := .http11,
       connection := 0, isKeepAlive := false } : Request).httpVersion = .http11 ∧
    (0 : Nat) ≠ Char.toNat 'c' ∧
    (compute_flags
        { method := .get, urlStart := 0, urlLen := 0,
          httpVersion := .http11, connection := 0, isKeepAlive := false }).isKeepAlive
      = true :=
  ⟨rfl, by decide, (c2_keep_alive_truth_table _).1 ⟨rfl, by decide⟩⟩

/-- The request `lwan_prepare_response_header` is exercised with in C3:
HTTP/1.1, keep-alive. -/
def c3req : Request :=
  { method := .get, urlStart := 0, urlLen := 0, httpVersion := .http11,
    connection := 0, isKeepAlive := true }

/-- The response descriptor of C3: content length 42, `text/plain`, no
extra headers. -/
def c3resp : Response :=
  { contentLength := 42, mimeType := "text/plain".toList, headers := [] }

/-- C3: encoding status 200 for an HTTP/1.1 keep-alive request with
content length 42, MIME type `text/plain` and no extra headers writes
exactly the specified header block followed by one defensive NUL, and
returns the block's length excluding that NUL. -/
theorem c3_response_header_exact_bytes :
    lwan_prepare_response_header c3req c3resp .ok
      = ("HTTP/1.1 200 OK\r\nContent-Length: 42\r\nContent-Type: text/plain\r\nConnection: Keep-Alive\r\nServer: lwan\r\n\r\n".toList
           ++ [nul],
         ("HTTP/1.1 200 OK\r\nContent-Length: 42\r\nContent-Type: text/plain\r\nConnection: Keep-Alive\r\nServer: lwan\r\n\r\n".toList).length) := by
  decide

/-- C4's input: a minimal valid request, NUL-terminated by the
orchestration. -/
def c4buf : List Char := "GET / HTTP/1.1\r\n".toList ++ [nul]

/-- C4's buffer after one run of the pipeline: `_identify_http_path` wrote
NUL over the `\r` (index 14) and over the space before `HTTP/1.1`
(index 5). -/
def c4mut : List Char := (c4buf.set 14 nul).set 5 nul

/-- The request produced by the request-line stage on `c4buf` (flags not
yet computed). -/
def c4reqP : Request :=
  { method := .get, urlStart := 4, urlLen := 1, httpVersion := .http11,
    connection := 0, isKeepAlive := false }

/-- The fully parsed request for `c4buf`. -/
def c4req : Request :=
  { method := .get, urlStart := 4, urlLen := 1, httpVersion := .http11,
    connection := 0, isKeepAlive := true }

/-- Evaluation of the pipeline on `c4buf` (the header loop exits at once:
fewer than four bytes remain at position 15). -/
theorem c4_parse_eval : parseBuffer c4buf 16 = .ok c4req c4mut := by
  have hws : ignore_leading_whitespace c4buf 0 = 0 := by decide
  have hm : identify_http_method c4buf 0 = some (.get, 4) := by decide
  have hp : identify_http_path (Request.initial .get) c4buf 4 16 = .ok c4reqP c4mut 15 := by
    decide
  have hh : phLoop c4reqP c4mut 15 15 16 = some (c4reqP, c4mut, 15) :=
    phLoop_break _ _ _ _ _ (Or.inr (by omega))
  simp only [parseBuffer]
  rw [hws]
  simp only [parseAfterWS]
  rw [if_neg (by decide), hm]
  simp only [parsePath]
  rw [hp]
  simp only [parseHd, parse_headers]
  rw [hh]
  decide

/-- Counterexample to C4 as stated: on `"GET / HTTP/1.1\r\n"` the first
run of the pipeline succeeds but mutates the buffer at indices 5 and 14 —
beyond the single orchestration NUL already present in `c4buf` — and a
second run of the pipeline over that same, now-mutated, buffer fails with
`BAD_REQUEST` (its `memchr` no longer finds a `\r`), so the two runs do
not yield identical request structures. -/
theorem c4_reparse_differs_counterexample :
    parseBuffer c4buf 16 = .ok c4req c4mut ∧
    parseBuffer c4mut 16 = .fail .badRequest ∧
    c4mut ≠ c4buf :=
  ⟨c4_parse_eval, by decide, by decide⟩

/-- C4 (amended): the pipeline is a pure function of the input bytes, but
it mutates the buffer beyond the orchestration's NUL: a successful
request-line parse rewrites exactly the `\r` found by `memchr` and the
byte 9 positions before it (matched header values additionally lose their
`\r`), and resumes after the `\r`; re-running the parse on the mutated
buffer therefore need not reproduce the first result. -/
theorem c4_request_line_mutation_characterization
    (req : Request) (buf : List Char) (pos limit : Nat)
    (r : Request) (b : List Char) (p : Nat)
    (hok : identify_http_path req buf pos limit = .ok r b p) :
    ∃ e, memchr buf pos '\r' limit = some e ∧
      b = (buf.set e nul).set (e - 9) nul ∧ p = e + 1 := by
  unfold identify_http_path at hok
  split at hok
  · simp at hok
  · rename_i e hme
    dsimp only at hok
    split at hok
    · simp at hok
    · split at hok
      · split at hok
        · simp at hok
        · split at hok
          · split at hok
            · rw [PathResult.ok.injEq] at hok
              exact ⟨e, hme, hok.2.1.symm, hok.2.2.symm⟩
            · simp at hok
          · simp at hok
      · simp at hok

/-- Witness for the amended C4, at the concrete input `c4buf`: the
mutation of the successful request-line parse is exactly the two NUL
writes. -/
theorem c4_request_line_mutation_witness :
    ∃ e, memchr c4buf 4 '\r' 16 = some e ∧
      c4mut = (c4buf.set e nul).set (e - 9) nul ∧ 15 = e + 1 :=
  c4_request_line_mutation_characterization (Request.initial .get) c4buf 4 16
    c4reqP c4mut 15 (by decide)

/-- The six allow-listed header names of `_parse_headers`. -/
def allowedHeaderNames : List (List Char) :=
  ["Connection".toList, "Host".toList, "If-Modified-Since".toList,
   "Range".toList, "Referer".toList, "Cookie".toList]

/-- C5 (amended): a header line whose start matches an allow-listed name
but whose `MATCH_HEADER` then fails (missing `':'`, missing `' '`, no
`\r`, or no `\n` after the `\r`) runs no header action (the request, in
particular the cached Connection byte, is returned unchanged) and falls
through to the generic `strchr(p, '\n')` skip; *provided that skip finds
a `'\n'`* (the `some q` hypothesis — a subsequent line terminator
exists), parsing continues with the line following it and the request
does not fail.  Without such a `'\n'` the skip returns `NULL` and the
loop increment/condition dereference the incremented null pointer —
`c5_no_line_end_crashes_counterexample` shows the original, unconditional
claim failing there. -/
theorem c5_malformed_allowlisted_header_skipped
    (req : Request) (buf : List Char) (ls p bufEnd : Nat)
    (name buf2 : List Char) (p2 q : Nat)
    (hmem : name ∈ allowedHeaderNames)
    (h4 : first4 buf p = name.take 4)
    (hmh : matchHeader name.length buf p = .noMatch buf2 p2)
    (h0 : rd buf p ≠ nul)
    (hlt : p + 4 < bufEnd)
    (hnl : strchr buf2 p2 '\n' = some q) :
    headerSwitch req buf p = (req, buf2, p2) ∧
    phLoop req buf ls p bufEnd = phLoop req buf2 (q + 1) (q + 1) bufEnd := by
  have hsw : headerSwitch req buf p = (req, buf2, p2) := by
    simp only [allowedHeaderNames, List.mem_cons, List.not_mem_nil, or_false] at hmem
    rcases hmem with rfl | rfl | rfl | rfl | rfl | rfl
    · rw [show ("Connection".toList).length = 10 from by decide] at hmh
      unfold headerSwitch
      rw [if_pos (h4.trans (by decide)), hmh]
    · rw [show ("Host".toList).length = 4 from by decide] at hmh
      unfold headerSwitch
      rw [if_neg (by rw [h4]; decide), if_pos (h4.trans (by decide)), hmh]
    · rw [show ("If-Modified-Since".toList).length = 17 from by decide] at hmh
      unfold headerSwitch
      rw [if_neg (by rw [h4]; decide), if_neg (by rw [h4]; decide),
        if_pos (h4.trans (by decide)), hmh]
    · rw [show ("Range".toList).length = 5 from by decide] at hmh
      unfold headerSwitch
      rw [if_neg (by rw [h4]; decide), if_neg (by rw [h4]; decide),
        if_neg (by rw [h4]; decide), if_pos (h4.trans (by decide)), hmh]
    · rw [show ("Referer".toList).length = 7 from by decide] at hmh
      unfold headerSwitch
      rw [if_neg (by rw [h4]; decide), if_neg (by rw [h4]; decide),
        if_neg (by rw [h4]; decide), if_neg (by rw [h4]; decide),
        if_pos (h4.trans (by decide)), hmh]
    · rw [show ("Cookie".toList).length = 6 from by decide] at hmh
      unfold headerSwitch
      rw [if_neg (by rw [h4]; decide), if_neg (by rw [h4]; decide),
        if_neg (by rw [h4]; decide), if_neg (by rw [h4]; decide),
        if_neg (by rw [h4]; decide), if_pos (h4.trans (by decide)), hmh]
  exact ⟨hsw, phLoop_step req buf ls p bufEnd req buf2 p2 q h0 (by omega) hsw hnl⟩

/-- Witness for C5 at the line `"Connection_x\r\n"` (the byte after the
full name is `'_'`, not `':'`): no action runs and the loop continues at
the next line (position 14). -/
theorem c5_malformed_allowlisted_header_skipped_witness :
    headerSwitch (Request.initial .get) ("Connection_x\r\n".toList) 0
      = (Request.initial .get, "Connection_x\r\n".toList, 11) ∧
    phLoop (Request.initial .get) ("Connection_x\r\n".toList) 0 0 14
      = phLoop (Request.initial .get) ("Connection_x\r\n".toList) 14 14 14 :=
  c5_malformed_allowlisted_header_skipped (Request.initial .get)
    ("Connection_x\r\n".toList) 0 0 14 ("Connection".toList)
    ("Connection_x\r\n".toList) 11 13 (by decide) (by decide) (by decide)
    (by decide) (by decide) (by decide)

/-- C6: `_identify_http_path` checks only the fixed offsets of the version
suffix: (1) if the major digit `*(space+6)` is not `'1'` the parse fails
(the reads are phrased on the buffer exactly as the code sees it, after
the two NUL writes); (2) on any successful parse the major digit was `'1'`
and the version is HTTP/1.0 exactly when the minor digit `*(space+8)` is
`'0'`, HTTP/1.1 for any other minor digit; (3) at the entry point,
`"GET / HTTP/2.0\r\n\r\n"` is answered with `BAD_REQUEST`. -/
theorem c6_http_version_major_minor :
    (∀ (req : Request) (buf : List Char) (pos limit e : Nat),
        memchr buf pos '\r' limit = some e →
        8 ≤ e →
        rd (buf.set e nul) (e - 8) = 'H' →
        9 ≤ e →
        rd ((buf.set e nul).set (e - 9) nul) (e - 3) ≠ '1' →
        identify_http_path req buf pos limit = .fail) ∧
    (∀ (req : Request) (buf : List Char) (pos limit e : Nat)
        (r : Request) (b : List Char) (p : Nat),
        memchr buf pos '\r' limit = some e →
        identify_http_path req buf pos limit = .ok r b p →
        rd ((buf.set e nul).set (e - 9) nul) (e - 3) = '1' ∧
        r.httpVersion = (if rd ((buf.set e nul).set (e - 9) nul) (e - 1) = '0'
                         then HttpVersion.http10 else HttpVersion.http11)) ∧
    (∀ lookup : List Char → Option UrlMap,
        lwan_process_request (.data ("GET / HTTP/2.0\r\n\r\n".toList)) lookup
          = .defaultResponse .badRequest) := by
  refine ⟨?_, ?_, ?_⟩
  · intro req buf pos limit e hme h8 hH h9 h1
    unfold identify_http_path
    rw [hme]
    dsimp only
    rw [if_neg (by omega), if_pos hH, if_neg (by omega), if_neg h1]
  · intro req buf pos limit e r b p hme hok
    unfold identify_http_path at hok
    rw [hme] at hok
    dsimp only at hok
    split at hok
    · simp at hok
    · split at hok
      · split at hok
        · simp at hok
        · split at hok
          · split at hok
            · rw [PathResult.ok.injEq] at hok
              refine ⟨by assumption, ?_⟩
              rw [← hok.1]
            · simp at hok
          · simp at hok
      · simp at hok
  · intro lookup
    have h : parseBuffer ("GET / HTTP/2.0\r\n\r\n".toList ++ [nul])
        ("GET / HTTP/2.0\r\n\r\n".toList).length = .fail .badRequest := by decide
    simp only [lwan_process_request]
    rw [if_neg (by decide), h]
    rfl

/-- Witness for C6: part (1) at `"GET / HTTP/2.0\r\n\r\n"` (major digit
`'2'`), part (2) at `"GET / HTTP/1.0\r\n"` (minor digit `'0'` gives
HTTP/1.0). -/
theorem c6_http_version_major_minor_witness :
    identify_http_path (Request.initial .get) ("GET / HTTP/2.0\r\n\r\n".toList) 4 18
      = .fail ∧
    (rd ((("GET / HTTP/1.0\r\n".toList).set 14 nul).set 5 nul) 11 = '1' ∧
     ({ method := .get, urlStart := 4, urlLen := 1, httpVersion := .http10,
        connection := 0, isKeepAlive := false } : Request).httpVersion
       = (if rd ((("GET / HTTP/1.0\r\n".toList).set 14 nul).set 5 nul) 13 = '0'
          then HttpVersion.http10 else HttpVersion.http11)) :=
  ⟨c6_http_version_major_minor.1 (Request.initial .get)
      ("GET / HTTP/2.0\r\n\r\n".toList) 4 18 14 (by decide) (by decide)
      (by decide) (by decide) (by decide),
   c6_http_version_major_minor.2.1 (Request.initial .get)
      ("GET / HTTP/1.0\r\n".toList) 4 16 14
      { method := .get, urlStart := 4, urlLen := 1, httpVersion := .http10,
        connection := 0, isKeepAlive := false }
      ((("GET / HTTP/1.0\r\n".toList).set 14 nul).set 5 nul) 15
      (by decide) (by decide)⟩

/-- C7's raw request bytes. -/
def c7content : List Char := "GET /hello HTTP/1.1\r\n".toList

/-- C7's buffer after parsing: NUL over the `\r` (19) and the version
space (10). -/
def c7mut : List Char := ((c7content ++ [nul]).set 19 nul).set 10 nul

/-- The request parsed from `c7content` (URL view `/hello`: start 4,
length 6). -/
def c7req : Request :=
  { method := .get, urlStart := 4, urlLen := 6, httpVersion := .http11,
    connection := 0, isKeepAlive := true }

/-- The request as the handler receives it after the route
`{ prefixLen := 6 }` matched: `url` advanced by 6, `url_len` untouched. -/
def c7stripped : Request :=
  { method := .get, urlStart := 10, urlLen := 6, httpVersion := .http11,
    connection := 0, isKeepAlive := true }

/-- A router whose longest matching prefix for `/hello` has length 6 and
whose handler returns 200. -/
def c7lookup : List Char → Option UrlMap := fun _ => some { prefixLen := 6, cbStatus := .ok }

/-- The request produced by the request-line stage on C7's buffer (flags
not yet computed). -/
def c7reqP : Request :=
  { method := .get, urlStart := 4, urlLen := 6, httpVersion := .http11,
    connection := 0, isKeepAlive := false }

/-- Evaluation of the pipeline on C7's buffer. -/
theorem c7_parse_eval :
    parseBuffer (c7content ++ [nul]) c7content.length = .ok c7req c7mut := by
  have hws : ignore_leading_whitespace (c7content ++ [nul]) 0 = 0 := by decide
  have hm : identify_http_method (c7content ++ [nul]) 0 = some (.get, 4) := by decide
  have hp : identify_http_path (Request.initial .get) (c7content ++ [nul]) 4
      c7content.length = .ok c7reqP c7mut 20 := by decide
  have hh : phLoop c7reqP c7mut 20 20 c7content.length = some (c7reqP, c7mut, 20) :=
    phLoop_break _ _ _ _ _ (Or.inr (by decide))
  simp only [parseBuffer]
  rw [hws]
  simp only [parseAfterWS]
  rw [if_neg (by decide), hm]
  simp only [parsePath]
  rw [hp]
  simp only [parseHd, parse_headers]
  rw [hh]
  decide

/-- Counterexample to C7 as stated: routing `/hello` through a prefix of
length 6 advances the URL view's start from 4 to 10, but `url_len` keeps
its pre-strip value 6 — the code executes only
`request->url += url_map->prefix_len` and never shrinks `url_len` — so
`(url, url_len)` does not describe the empty suffix past the prefix
(whose length would be 0). -/
theorem c7_url_len_not_adjusted_counterexample :
    lwan_process_request (.data c7content) c7lookup = .handled c7stripped .ok ∧
    c7stripped.urlLen ≠ 0 := by
  constructor
  · simp only [lwan_process_request]
    rw [if_neg (by decide), c7_parse_eval]
    decide
  · decide

/-- C7 (amended): on a successful route the URL view's start is advanced
by the matched prefix length before the handler runs (so the handler sees
the NUL-terminated suffix string), while every other request field —
`url_len` included — is passed through unchanged. -/
theorem c7_prefix_strip_amended (content : List Char)
    (lookup : List Char → Option UrlMap) (req : Request) (buf : List Char)
    (um : UrlMap)
    (hlen : content.length ≠ 6144)
    (hparse : parseBuffer (content ++ [nul]) content.length = .ok req buf)
    (hlk : lookup (urlString buf req.urlStart) = some um) :
    lwan_process_request (.data content) lookup
      = .handled { req with urlStart := req.urlStart + um.prefixLen } um.cbStatus := by
  simp only [lwan_process_request]
  rw [if_neg hlen, hparse]
  simp only [routeRequest]
  rw [hlk]

/-- Witness for the amended C7 at the concrete `/hello` request. -/
theorem c7_prefix_strip_amended_witness :
    lwan_process_request (.data c7content) c7lookup
      = .handled
          { c7req with urlStart :=
              c7req.urlStart + ({ prefixLen := 6, cbStatus := .ok } : UrlMap).prefixLen }
          ({ prefixLen := 6, cbStatus := .ok } : UrlMap).cbStatus :=
  c7_prefix_strip_amended c7content c7lookup c7req c7mut
    { prefixLen := 6, cbStatus := .ok } (by decide) c7_parse_eval (by decide)

/-- C8: when the single `read` returns exactly the buffer capacity
(6144 bytes), the entry point answers `TOO_LARGE` for every content and
every router, before any parsing: the `switch` on `bytes_read` returns
straight away. -/
theorem c8_full_buffer_read_too_large (content : List Char)
    (lookup : List Char → Option UrlMap) (h : content.length = 6144) :
    lwan_process_request (.data content) lookup = .defaultResponse .tooLarge := by
  simp only [lwan_process_request]
  rw [if_pos h]

/-- Witness for C8: 6144 bytes of `'A'` — not even a valid method — still
yield `TOO_LARGE`. -/
theorem c8_full_buffer_read_too_large_witness :
    (List.replicate 6144 'A').length = 6144 ∧
    lwan_process_request (.data (List.replicate 6144 'A')) (fun _ => none)
      = .defaultResponse .tooLarge :=
  ⟨List.length_replicate 6144 'A',
   c8_full_buffer_read_too_large _ _ (List.length_replicate 6144 'A')⟩

/-- C9's raw request bytes: a HEAD request whose unchecked fifth byte is
`'H'` and whose URL bytes mimic the version suffix shape. -/
def c9content : List Char := "HEADH/abc1d1\r\n".toList

/-- C9's buffer after parsing: NUL over the `\r` (12) and over
`end_of_line - 9` (3, inside the method token). -/
def c9mut : List Char := ((c9content ++ [nul]).set 12 nul).set 3 nul

/-- The request produced by the request-line stage on `c9content` (flags
not yet computed): `url_len = space - buffer = 3 - 5` cast to `size_t`,
i.e. `2^64 - 2`. -/
def c9reqP : Request :=
  { method := .head, urlStart := 5, urlLen := 18446744073709551614,
    httpVersion := .http11, connection := 0, isKeepAlive := false }

/-- The fully parsed request for `c9content`. -/
def c9req : Request :=
  { method := .head, urlStart := 5, urlLen := 18446744073709551614,
    httpVersion := .http11, connection := 0, isKeepAlive := true }

/-- Counterexample to C9's invariant "on success the parsed url is never
longer than the buffer": the 14-byte read `"HEADH/abc1d1\r\n"` parses
successfully — `HEAD` is matched on its first four bytes only, the `'H'`
at the unchecked fifth byte passes the `*(space+1)` test, and the digits
at offsets `space+6`/`space+8` pass the version test — and the stored
`url_len`, the pointer difference `space - buffer` cast to `size_t`, is
`2^64 - 2`, vastly exceeding the buffer length. -/
theorem c9_url_len_exceeds_buffer_counterexample :
    parseBuffer (c9content ++ [nul]) c9content.length = .ok c9req c9mut ∧
    (c9content ++ [nul]).length < c9req.urlLen := by
  constructor
  · have hws : ignore_leading_whitespace (c9content ++ [nul]) 0 = 0 := by decide
    have hm : identify_http_method (c9content ++ [nul]) 0 = some (.head, 5) := by decide
    have hp : identify_http_path (Request.initial .head) (c9content ++ [nul]) 5
        c9content.length = .ok c9reqP c9mut 13 := by decide
    have hh : phLoop c9reqP c9mut 13 13 c9content.length = some (c9reqP, c9mut, 13) :=
      phLoop_break _ _ _ _ _ (Or.inr (by decide))
    simp only [parseBuffer]
    rw [hws]
    simp only [parseAfterWS]
    rw [if_neg (by decide), hm]
    simp only [parsePath]
    rw [hp]
    simp only [parseHd, parse_headers]
    rw [hh]
    decide
  · decide

/-- C9 (amended): (1) for an otherwise well-formed request line (a `\r`
found, the backward offset in bounds, `'H'` and major digit `'1'` at
their fixed offsets) whose URL span is empty (`space` coincides with the
URL start, which the NUL write then clobbers) or does not begin with
`'/'`, `_identify_http_path` fails; (2) on any successful parse the url
view starts with `'/'` in the (mutated) buffer and begins at the given
position; (3) at the entry point, a URL without a leading `/` is
answered with `BAD_REQUEST`.  The original claim's bound "never longer
than the buffer" is dropped: `c9_url_len_exceeds_buffer_counterexample`
refutes it. -/
theorem c9_url_slash_validation_amended :
    (∀ (req : Request) (buf : List Char) (pos limit e : Nat),
        memchr buf pos '\r' limit = some e →
        8 ≤ e →
        rd (buf.set e nul) (e - 8) = 'H' →
        9 ≤ e →
        rd ((buf.set e nul).set (e - 9) nul) (e - 3) = '1' →
        (e - 9 = pos ∨ rd buf pos ≠ '/') →
        identify_http_path req buf pos limit = .fail) ∧
    (∀ (req : Request) (buf : List Char) (pos limit : Nat)
        (r : Request) (b : List Char) (p : Nat),
        identify_http_path req buf pos limit = .ok r b p →
        rd b r.urlStart = '/' ∧ r.urlStart = pos) ∧
    (∀ lookup : List Char → Option UrlMap,
        lwan_process_request (.data ("GET |x HTTP/1.1\r\n\r\n".toList)) lookup
          = .defaultResponse .badRequest) := by
  refine ⟨?_, ?_, ?_⟩
  · intro req buf pos limit e hme h8 hH h9 h1 hurl
    have helt : e < buf.length := memchr_lt_length limit buf pos '\r' e hme
    have hnotslash : ¬ rd ((buf.set e nul).set (e - 9) nul) pos = '/' := by
      by_cases hp9 : pos = e - 9
      · rw [hp9, rd_set_self _ _ _ (by simp; omega)]
        decide
      · rw [rd_set_ne _ _ _ _ (fun hc => hp9 hc.symm)]
        by_cases hpe : pos = e
        · rw [hpe, rd_set_self _ _ _ helt]
          decide
        · rw [rd_set_ne _ _ _ _ (fun hc => hpe hc.symm)]
          rcases hurl with hps | hns
          · exact absurd hps.symm hp9
          · exact hns
    unfold identify_http_path
    rw [hme]
    dsimp only
    rw [if_neg (by omega), if_pos hH, if_neg (by omega), if_pos h1, if_neg hnotslash]
  · intro req buf pos limit r b p hok
    unfold identify_http_path at hok
    split at hok
    · simp at hok
    · rename_i e hme
      dsimp only at hok
      split at hok
      · simp at hok
      · split at hok
        · split at hok
          · simp at hok
          · split at hok
            · split at hok
              · rw [PathResult.ok.injEq] at hok
                rw [← hok.1, ← hok.2.1]
                exact ⟨by assumption, rfl⟩
              · simp at hok
            · simp at hok
        · simp at hok
  · intro lookup
    have h : parseBuffer ("GET |x HTTP/1.1\r\n\r\n".toList ++ [nul])
        ("GET |x HTTP/1.1\r\n\r\n".toList).length = .fail .badRequest := by decide
    simp only [lwan_process_request]
    rw [if_neg (by decide), h]
    rfl

/-- Witness for the amended C9: part (1) at `"GET |x HTTP/1.1\r\n\r\n"`
(URL starting with `'|'`), part (2) at the successful parse of
`"GET / HTTP/1.1\r\n"`. -/
theorem c9_url_slash_validation_amended_witness :
    identify_http_path (Request.initial .get) ("GET |x HTTP/1.1\r\n\r\n".toList) 4 19
      = .fail ∧
    (rd c4mut c4reqP.urlStart = '/' ∧ c4reqP.urlStart = 4) :=
  ⟨c9_url_slash_validation_amended.1 (Request.initial .get)
      ("GET |x HTTP/1.1\r\n\r\n".toList) 4 19 15 (by decide) (by decide)
      (by decide) (by decide) (by decide) (Or.inr (by decide)),
   c9_url_slash_validation_amended.2.1 (Request.initial .get) c4buf 4 16
      c4reqP c4mut 15 (by decide)⟩

/-- C10: allow-list recognition compares only the first four bytes of the
line.  If those equal `"Conn"` and the bytes at the offsets where the full
name `Connection` would end are `':'` then `' '`, and the value line ends
in `\r\n`, the line is handled as a Connection header — the intermediate
bytes (offsets 4–9) are never inspected, and the lowercased first value
byte (`*value | 0x20`) is cached — no matter what the remaining six name
bytes contain. -/
theorem c10_four_byte_prefix_match
    (req : Request) (buf : List Char) (p e : Nat)
    (h4 : first4 buf p = "Conn".toList)
    (hcolon : rd buf (p + 10) = ':')
    (hspace : rd buf (p + 10 + 1) = ' ')
    (hcr : strchr buf (p + 10 + 2) '\r' = some e)
    (hlf : rd (buf.set e nul) (e + 1) = '\n') :
    headerSwitch req buf p
      = ({ req with connection := (rd (buf.set e nul) (p + 10 + 2)).toNat ||| 0x20 },
         buf.set e nul, e + 1) := by
  have hmh : matchHeader 10 buf p
      = .matched (buf.set e nul) (p + 10 + 2) (e + 1) := by
    unfold matchHeader
    rw [if_pos hcolon, if_pos hspace, hcr]
    dsimp only
    rw [if_pos hlf]
  unfold headerSwitch
  rw [if_pos h4, hmh]

/-- Witness for C10: the ten-byte name `Connfoobar` is treated as
`Connection` and caches `'c'` from its value `close`. -/
theorem c10_four_byte_prefix_match_witness :
    headerSwitch (Request.initial .get) ("Connfoobar: close\r\n".toList) 0
      = ({ Request.initial .get with
             connection := (rd (("Connfoobar: close\r\n".toList).set 17 nul)
               (0 + 10 + 2)).toNat ||| 0x20 },
         ("Connfoobar: close\r\n".toList).set 17 nul, 17 + 1) :=
  c10_four_byte_prefix_match (Request.initial .get)
    ("Connfoobar: close\r\n".toList) 0 17 (by decide) (by decide) (by decide)
    (by decide) (by decide)

/-- The loop hits undefined behaviour when the shared
`did_not_match: p = strchr(p, '\n')` finds no `'\n'`: the for-increment
executes `buffer = ++p` on the `NULL` and the loop condition dereferences
the incremented null pointer. -/
theorem phLoop_crash (req : Request) (buf : List Char) (ls p bufEnd : Nat)
    (req2 : Request) (buf2 : List Char) (p2 : Nat)
    (h0 : rd buf p ≠ nul) (h4 : ¬ bufEnd ≤ p + 4)
    (hs : headerSwitch req buf p = (req2, buf2, p2))
    (hq : strchr buf2 p2 '\n' = none) :
    phLoop req buf ls p bufEnd = none := by
  rw [phLoop, if_neg h0, dif_neg h4, hs]
  dsimp only
  split
  · rfl
  · rename_i q2 heq
    rw [hq] at heq
    cases heq

/-- C5's crashing input: a valid request line followed by a Connection
header whose line has no `'\r'` (and no `'\n'`) before the end of the
read — the claim's "has no `'\r'` ... ending the line" mode. -/
def c5crashContent : List Char := "GET / HTTP/1.1\r\nConnection: close".toList

/-- C5's buffer after the request-line stage (NUL over indices 14 and 5). -/
def c5crashMut : List Char := ((c5crashContent ++ [nul]).set 14 nul).set 5 nul

/-- The request after the request-line stage on `c5crashContent`. -/
def c5reqP : Request :=
  { method := .get, urlStart := 4, urlLen := 1, httpVersion := .http11,
    connection := 0, isKeepAlive := false }

/-- Counterexample to C5 as stated: the line at position 16 of
`"GET / HTTP/1.1\r\nConnection: close"` starts with the allow-listed name
`Connection` (first four bytes `"Conn"`), has its `':'` and `' '`, but no
`'\r'` ends the line before the buffer does.  The fall-through skip's
`strchr(p, '\n')` then returns `NULL`, the loop increment applies `++` to
it and the loop condition dereferences the result: header parsing crashes
the request (modelled `.crash`) instead of skipping the line and
continuing. -/
theorem c5_no_line_end_crashes_counterexample :
    first4 c5crashMut 16 = "Conn".toList ∧
    strchr c5crashMut 28 '\r' = none ∧
    parseBuffer (c5crashContent ++ [nul]) c5crashContent.length = .crash := by
  refine ⟨by decide, by decide, ?_⟩
  have hws : ignore_leading_whitespace (c5crashContent ++ [nul]) 0 = 0 := by decide
  have hm : identify_http_method (c5crashContent ++ [nul]) 0 = some (.get, 4) := by
    decide
  have hp : identify_http_path (Request.initial .get) (c5crashContent ++ [nul]) 4
      c5crashContent.length = .ok c5reqP c5crashMut 15 := by decide
  have hstep : phLoop c5reqP c5crashMut 15 15 c5crashContent.length
      = phLoop c5reqP c5crashMut 16 16 c5crashContent.length :=
    phLoop_step c5reqP c5crashMut 15 15 c5crashContent.length c5reqP c5crashMut 15 15
      (by decide) (by decide) (by decide) (by decide)
  have hcrash : phLoop c5reqP c5crashMut 16 16 c5crashContent.length = none :=
    phLoop_crash c5reqP c5crashMut 16 16 c5crashContent.length c5reqP c5crashMut 28
      (by decide) (by decide) (by decide) (by decide)
  simp only [parseBuffer]
  rw [hws]
  simp only [parseAfterWS]
  rw [if_neg (by decide), hm]
  simp only [parsePath]
  rw [hp]
  simp only [parseHd, parse_headers]
  rw [hstep, hcrash]
